import Mathlib

/-!
Verification of the `cargo-valgrind` core library (`src/lib.rs`).

The development shallowly embeds the pipeline of the crate:
socket-and-subprocess report channel (`run_in_valgrind`), the XML report
model (`valgrind_xml`), the public leak extraction (`valgrind`), the
`Display` implementation for `Function`, the `cargo_error` helper and the
crate-metadata driven `binaries_from`.

Effectful operations (socket bind, address resolution, spawning, accepting
a connection, waiting on the child) are embedded by passing an explicit
`World` describing the outcome of each OS interaction, and by recording the
performed operations in an event trace so that ordering claims can be
stated.
-/

namespace CargoValgrind

/-- The leak classifications reported by the analysis tool.
Modelled from the spec: the `valgrind_xml` module is not in `src/`; the spec
describes `LeakKind` as a closed enumeration of the tool's leak
classifications ("definitely lost", "indirectly lost", "possibly lost",
"still reachable"), copied verbatim into the domain model. -/
inductive Kind
  | DefinitelyLost
  | IndirectlyLost
  | PossiblyLost
  | StillReachable
deriving DecidableEq, Repr

namespace valgrind_xml

/-- The byte-resource count of an error record.
Modelled from the spec: the `valgrind_xml` module is not in `src/`; the
field `bytes` is the one accessed as `error.resources.bytes` in
`src/lib.rs`. -/
structure Resources where
  bytes : Nat
deriving DecidableEq, Repr

/-- A raw stack frame of the report.
Modelled from the spec: each frame element optionally carries
function-name, file-name and line-number fields (accessed as
`frame.function`, `frame.file`, `frame.line` in `src/lib.rs`), plus raw
fields not retained in the domain model (object file path, instruction
address). -/
structure Frame where
  function : Option String
  file : Option String
  line : Option Nat
  obj : Option String
  ip : Option String
deriving DecidableEq, Repr

/-- The stack trace of an error record, frames most-recent-call-first.
Modelled from the spec: accessed as `error.stack_trace.frames` in
`src/lib.rs`. -/
structure Stack where
  frames : List Frame
deriving DecidableEq, Repr

/-- One error record of the report.
Modelled from the spec: each error element carries a byte-resource count, a
leak-kind tag and a stack trace; accessed as `error.resources`,
`error.kind`, `error.stack_trace` in `src/lib.rs`. -/
structure Error where
  kind : Kind
  resources : Resources
  stack_trace : Stack
deriving DecidableEq, Repr

/-- The root of the parsed report.
Modelled from the spec: a rooted structure holding zero or more error
records; the error sequence may be entirely absent, hence the `Option`
(accessed as `.errors.unwrap_or_default()` in `src/lib.rs`). -/
structure Output where
  errors : Option (List Error)
deriving DecidableEq, Repr

end valgrind_xml

/-- The bytes arriving over the report channel, abstracted at the level the
parser distinguishes.
Modelled from the spec: the XML decoding (`serde_xml_rs` plus the derives in
the missing `valgrind_xml` module) is not in `src/`; per the spec, a
structurally valid document (including one with zero error records) decodes
to the Report Model it denotes, and a truncated or malformed stream fails
with a decoding failure description. -/
inductive ReportStream
  | wellFormed (errors : Option (List valgrind_xml.Error))
  | malformed (desc : String)
deriving DecidableEq, Repr

/-- Modelled from the spec: the report decoder. A well-formed stream yields
its Report Model, a malformed stream fails with its failure description. -/
def parseReport : ReportStream → Except String valgrind_xml.Output
  | .wellFormed errors => .ok ⟨errors⟩
  | .malformed desc => .error desc

/-- The error kinds of `std::io::Error` used by `src/lib.rs`. -/
inductive ErrorKind
  | Other
  | InvalidInput
deriving DecidableEq, Repr

/-- Embedding of `std::io::Error` as constructed by `Error::new(kind, msg)`
in `src/lib.rs`. -/
structure IoError where
  kind : ErrorKind
  msg : String
deriving DecidableEq, Repr

/-- A single function in the call trace (struct `Function`,
`src/lib.rs:168-176`). -/
structure Function where
  name : Option String
  file : Option String
  line : Option Nat
deriving DecidableEq, Repr

/-- `Function::name` accessor (`src/lib.rs:182`). -/
def Function.name' (f : Function) : Option String := f.name

/-- `Function::file` accessor (`src/lib.rs:190`). -/
def Function.file' (f : Function) : Option String := f.file

/-- `Function::line` accessor (`src/lib.rs:198`). -/
def Function.line' (f : Function) : Option Nat := f.line

/-- Embedding of `impl Display for Function` (`src/lib.rs:202-215`): the
sequence of formatter writes is modelled as successive string appends. -/
def Function.display (f : Function) : String :=
  let s := match f.name' with
    | some name => name
    | none => "unknown"
  match f.file' with
  | some file =>
    let s := s ++ " ("
    let s := s ++ file
    let s := match f.line' with
      | some line => s ++ ":" ++ toString line
      | none => s
    s ++ ")"
  | none => s

/-- A single memory leak (struct `Leak`, `src/lib.rs:129-137`). -/
structure Leak where
  bytes : Nat
  kind : Kind
  stack_trace : List Function
deriving DecidableEq, Repr

/-- `Leak::leaked_bytes` accessor (`src/lib.rs:140`). -/
def Leak.leaked_bytes (l : Leak) : Nat := l.bytes

/-- `Leak::leak_kind` accessor (`src/lib.rs:145`). -/
def Leak.leak_kind (l : Leak) : Kind := l.kind

/-- `Leak::back_trace` accessor (`src/lib.rs:152`). -/
def Leak.back_trace (l : Leak) : List Function := l.stack_trace

/-- One OS interaction performed by `run_in_valgrind`, recorded in order.
`bind port` is the bind request (`port = 0` asks the OS for an ephemeral
port), `localAddr` is the resolution of the bound address, `spawn args` the
launch of the valgrind child with the given argument list, `accept` the
acceptance of one inbound connection, `wait ok` the wait on the child (with
its exit success), `parse` the handing of the connection to the report
decoder. -/
inductive Event
  | bind (port : Nat)
  | localAddr (ip : String) (port : Nat)
  | spawn (args : List String)
  | accept
  | wait (success : Bool)
  | parse
deriving DecidableEq, Repr

/-- Outcome of each OS interaction of one invocation: whether bind, address
resolution, spawn, accept and wait succeed, the ephemeral port the OS
assigns, the text the child writes to its (inherited, never captured)
standard error stream, and the bytes the child streams over the
connection. -/
structure World where
  bindOk : Bool
  addrOk : Bool
  port : Nat
  spawnOk : Bool
  acceptOk : Bool
  waitOk : Bool
  exitSuccess : Bool
  childStderr : String
  stream : ReportStream
deriving DecidableEq, Repr

/-- Embedding of `run_in_valgrind` (`src/lib.rs:227-246`), returning the
trace of performed OS interactions together with the result. Each step is
recorded when it succeeds; a failing step aborts with an error, exactly as
each `?` in the source does. -/
def run_in_valgrind (w : World) (path : String) : List Event × Except IoError valgrind_xml.Output :=
  if !w.bindOk then ([], .error ⟨.Other, "could not bind listener"⟩) else
  let e1 := [Event.bind 0]
  if !w.addrOk then (e1, .error ⟨.Other, "could not resolve local address"⟩) else
  let addrIp := "127.0.0.1"
  let addrPort := w.port
  let e2 := e1 ++ [Event.localAddr addrIp addrPort]
  let args := ["--leak-check=full", "--show-leak-kinds=all", "--xml=yes",
    "--xml-socket=" ++ addrIp ++ ":" ++ toString addrPort, path]
  if !w.spawnOk then (e2, .error ⟨.Other, "could not spawn valgrind"⟩) else
  let e3 := e2 ++ [Event.spawn args]
  if !w.acceptOk then (e3, .error ⟨.Other, "could not accept connection"⟩) else
  let e4 := e3 ++ [Event.accept]
  if !w.waitOk then (e4, .error ⟨.Other, "could not wait on child"⟩) else
  let e5 := e4 ++ [Event.wait w.exitSuccess]
  if w.exitSuccess then
    match parseReport w.stream with
    | .ok out => (e5 ++ [Event.parse], .ok out)
    | .error e => (e5 ++ [Event.parse], .error ⟨.Other, "Could not parse XML: " ++ e⟩)
  else
    (e5, .error ⟨.Other, "valgrind command failed"⟩)

/-- Embedding of the public pipeline `valgrind` (`src/lib.rs:103-123`). -/
def valgrind (w : World) (path : String) : Except IoError (List Leak) :=
  match (run_in_valgrind w path).2 with
  | .error e => .error e
  | .ok out =>
    .ok ((out.errors.getD []).map (fun error =>
      { bytes := error.resources.bytes
        kind := error.kind
        stack_trace := error.stack_trace.frames.map (fun frame =>
          { name := frame.function
            file := frame.file
            line := frame.line : Function }) : Leak }))

namespace process

/-- Embedding of `std::process::Output` as used by `cargo_error`
(`src/lib.rs:360`): the exit status and the captured output streams.
`stderr` is modelled as the text it holds (`from_utf8_lossy` is the
identity on valid UTF-8). -/
structure Output where
  status_success : Bool
  stdout : String
  stderr : String
deriving DecidableEq, Repr

end process

/-- The characters of the pattern `"error: "` stripped by `cargo_error`. -/
def errPat : List Char := "error: ".data

/-- The iteration of `str::trim_start_matches("error: ")`: remove the
leading pattern as long as it is there. The fuel bounds the number of
removals; each removal consumes the nonempty pattern, so `s.length` rounds
always suffice. -/
def stripErrPatGo : Nat → List Char → List Char
  | 0, s => s
  | fuel + 1, s =>
    if errPat.isPrefixOf s then
      stripErrPatGo fuel (s.drop errPat.length)
    else
      s

/-- Embedding of `str::trim_start_matches("error: ")`
(`src/lib.rs:362`): repeatedly removes the leading pattern. -/
def stripErrPat (s : List Char) : List Char :=
  stripErrPatGo s.length s

/-- Embedding of `str::trim_end` (`src/lib.rs:362`): removes trailing
whitespace. -/
def trimEndChars (s : List Char) : List Char :=
  (s.reverse.dropWhile Char.isWhitespace).reverse

/-- Embedding of `cargo_error` (`src/lib.rs:360-364`): build an `io::Error`
from the stderr text of a failed `cargo` invocation, stripping the leading
`"error: "` pattern and trimming trailing whitespace. -/
def cargo_error (output : process.Output) : IoError :=
  let msg := output.stderr
  let msg := String.mk (trimEndChars (stripErrPat msg.data))
  ⟨.Other, "cargo command failed: " ++ msg⟩

/-- The possible build types (`src/lib.rs:19-24`). -/
inductive Build
  | Debug
  | Release
deriving DecidableEq, Repr

/-- `impl AsRef<Path> for Build` (`src/lib.rs:30-37`). -/
def Build.as_ref : Build → String
  | .Debug => "debug"
  | .Release => "release"

namespace metadata

/-- The target kinds of the crate metadata.
Modelled from the spec: the `metadata` module is not in `src/`; the
variants are exactly the ones matched in `binaries_from`
(`src/lib.rs:297-307`). -/
inductive Kind
  | Binary
  | Example
  | Bench
  | Test
  | CustomBuild
  | Library
  | ProcMacro
  | DyLib
  | CDyLib
  | StaticLib
  | RLib
deriving DecidableEq, Repr

/-- The crate types of a target.
Modelled from the spec: the `metadata` module is not in `src/`; only the
`Binary` variant is inspected by `binaries_from` (`src/lib.rs:294`), the
others are the library-like crate types. -/
inductive CrateType
  | Binary
  | Library
  | RLib
  | DyLib
  | CDyLib
  | StaticLib
  | ProcMacro
deriving DecidableEq, Repr

/-- A build target of a package.
Modelled from the spec: fields as used in `src/lib.rs:292-309`
(`target.crate_types`, `target.kind`, `target.name`). -/
structure Target where
  name : String
  kind : List Kind
  crate_types : List CrateType
deriving DecidableEq, Repr

/-- A package of the crate metadata.
Modelled from the spec: fields as used in `src/lib.rs:289-292`. -/
structure Package where
  manifest_path : String
  targets : List Target
deriving DecidableEq, Repr

/-- The crate metadata.
Modelled from the spec: fields as used in `src/lib.rs:285-287`. -/
structure Metadata where
  packages : List Package
  target_directory : String
deriving DecidableEq, Repr

end metadata

/-- The panicking exits of `binaries_from`: the `unimplemented!()` branch
for `Test`/`CustomBuild` kinds, the `unreachable!()` branch for
library-like kinds, and the index panic of `target.kind[0]` on an empty
kind list. -/
inductive Panic
  | unimplementedKind
  | unreachableKind
  | indexOutOfBounds
deriving DecidableEq, Repr

/-- The closure mapped over the filtered targets of `binaries_from`
(`src/lib.rs:295-310`): joins the target directory with the kind-dependent
subdirectory and the target name. The `unimplemented!()`, `unreachable!()`
and `target.kind[0]` index panics are the `Except.error` outcomes. -/
def target_path (target_dir : List String) (target : metadata.Target) :
    Except Panic (List String) :=
  match target.kind.head? with
  | none => Except.error Panic.indexOutOfBounds
  | some k =>
    (match k with
      | metadata.Kind.Binary => Except.ok ""
      | metadata.Kind.Example => Except.ok "examples"
      | metadata.Kind.Bench => Except.ok "benches"
      | metadata.Kind.Test | metadata.Kind.CustomBuild =>
        Except.error Panic.unimplementedKind
      | metadata.Kind.Library | metadata.Kind.ProcMacro | metadata.Kind.DyLib
      | metadata.Kind.CDyLib | metadata.Kind.StaticLib
      | metadata.Kind.RLib => Except.error Panic.unreachableKind).map
      (fun d => target_dir ++ [d, target.name])

/-- Embedding of `binaries_from` (`src/lib.rs:280-313`). Paths are modelled
as their pushed components (`Path::join` pushes one component); the
panicking branches are modelled as `Except.error` with the corresponding
`Panic` value, surfacing the first panic the iteration would hit. -/
def binaries_from (package : metadata.Metadata) (requested : String) (build : Build) :
    Except Panic (List (List String)) :=
  let target_dir := [package.target_directory, build.as_ref]
  (package.packages.filter (fun package => package.manifest_path == requested)
    |>.flatMap (fun package =>
      package.targets.filter (fun target =>
        target.crate_types.contains metadata.CrateType.Binary))
    ).mapM (target_path target_dir)

/-- The library-like target kinds, the ones handled by the
`unreachable!()` branch of `binaries_from`. -/
def libKinds : List metadata.Kind :=
  [.Library, .ProcMacro, .DyLib, .CDyLib, .StaticLib, .RLib]

/-- A world in which every OS interaction succeeds and the child exits
successfully. -/
def okWorld (port : Nat) (childStderr : String) (stream : ReportStream) : World :=
  ⟨true, true, port, true, true, true, true, childStderr, stream⟩

/-- A world in which every OS interaction succeeds but the child exits with
a non-zero status. -/
def failWorld (port : Nat) (childStderr : String) (stream : ReportStream) : World :=
  ⟨true, true, port, true, true, true, false, childStderr, stream⟩

/-! ## Theorems for the claims -/

/-- C5: for every `Function` value, its Display rendering equals: the name
if present, otherwise the literal string "unknown"; followed by " (file)"
when file is present and line is absent, " (file:line)" when both file and
line are present, and nothing when file is absent (in particular, a present
line with an absent file is never rendered). -/
theorem display_renders_per_spec (f : Function) :
    (f.file' = none → f.display = f.name'.getD "unknown") ∧
    (∀ file, f.file' = some file → f.line' = none →
      f.display = f.name'.getD "unknown" ++ " (" ++ file ++ ")") ∧
    (∀ file line, f.file' = some file → f.line' = some line →
      f.display = f.name'.getD "unknown" ++ " (" ++ file ++ ":" ++ toString line ++ ")") := by
  obtain ⟨name, file, line⟩ := f
  refine ⟨?_, ?_, ?_⟩ <;> intros <;>
    cases name <;> cases file <;> cases line <;>
    simp_all [Function.display, Function.name', Function.file', Function.line']

/-- Witness for C5: a concrete frame with all three fields present renders
as `name (file:line)`. -/
theorem display_renders_per_spec_witness :
    (⟨some "leaky", some "main.c", some 12⟩ : Function).display = "leaky (main.c:12)" := by
  have h := display_renders_per_spec ⟨some "leaky", some "main.c", some 12⟩
  exact (h.2.2 "main.c" 12 rfl rfl).trans (by decide)

/-- The single leak of the concrete scenario of C2. -/
def scenarioLeak : Leak :=
  ⟨40, .DefinitelyLost, [⟨some "leaky", some "main.c", some 12⟩]⟩

/-- C2: on the report consisting of one error record with bytes 40, kind
`DefinitelyLost` and the single frame `{name: "leaky", file: "main.c",
line: 12}`, the pipeline returns exactly one leak with `leaked_bytes = 40`,
`leak_kind = DefinitelyLost`, a one-element stack trace with those fields,
and that frame displays as `"leaky (main.c:12)"`. -/
theorem valgrind_concrete_scenario :
    valgrind
      (okWorld 0 ""
        (.wellFormed (some [⟨.DefinitelyLost, ⟨40⟩,
          ⟨[⟨some "leaky", some "main.c", some 12, none, none⟩]⟩⟩])))
      "target/debug/prog" = .ok [scenarioLeak] ∧
    scenarioLeak.leaked_bytes = 40 ∧
    scenarioLeak.leak_kind = .DefinitelyLost ∧
    scenarioLeak.back_trace = [⟨some "leaky", some "main.c", some 12⟩] ∧
    Function.display ⟨some "leaky", some "main.c", some 12⟩ = "leaky (main.c:12)" := by
  refine ⟨rfl, rfl, rfl, rfl, by decide⟩

/-- C1: on a report whose model carries the error records `errs`, the
pipeline returns exactly `errs.length` leaks, in the same relative order,
each copying its record's byte count and kind verbatim, and each stack
trace holding the record's frames in their original order with the
function/file/line fields copied unchanged. -/
theorem valgrind_maps_errors_pointwise (port : Nat) (stderrText path : String)
    (errs : List valgrind_xml.Error) :
    ∃ leaks, valgrind (okWorld port stderrText (.wellFormed (some errs))) path = .ok leaks ∧
      leaks.length = errs.length ∧
      ∀ i (hl : i < leaks.length) (he : i < errs.length),
        (leaks.get ⟨i, hl⟩).bytes = (errs.get ⟨i, he⟩).resources.bytes ∧
        (leaks.get ⟨i, hl⟩).kind = (errs.get ⟨i, he⟩).kind ∧
        (leaks.get ⟨i, hl⟩).stack_trace.length
          = (errs.get ⟨i, he⟩).stack_trace.frames.length ∧
        ∀ j (hs : j < (leaks.get ⟨i, hl⟩).stack_trace.length)
            (hf : j < (errs.get ⟨i, he⟩).stack_trace.frames.length),
          ((leaks.get ⟨i, hl⟩).stack_trace.get ⟨j, hs⟩).name
            = ((errs.get ⟨i, he⟩).stack_trace.frames.get ⟨j, hf⟩).function ∧
          ((leaks.get ⟨i, hl⟩).stack_trace.get ⟨j, hs⟩).file
            = ((errs.get ⟨i, he⟩).stack_trace.frames.get ⟨j, hf⟩).file ∧
          ((leaks.get ⟨i, hl⟩).stack_trace.get ⟨j, hs⟩).line
            = ((errs.get ⟨i, he⟩).stack_trace.frames.get ⟨j, hf⟩).line := by
  have hmain : valgrind (okWorld port stderrText (.wellFormed (some errs))) path
      = .ok (errs.map (fun error =>
        { bytes := error.resources.bytes
          kind := error.kind
          stack_trace := error.stack_trace.frames.map (fun frame =>
            { name := frame.function
              file := frame.file
              line := frame.line : Function }) : Leak })) := rfl
  refine ⟨_, hmain, by simp, ?_⟩
  intro i hl he
  simp [List.get_eq_getElem, List.getElem_map]

/-- Witness for C1: on a concrete two-record report the pipeline returns
two leaks whose first leak copies its record's 7 bytes. -/
theorem valgrind_maps_errors_pointwise_witness :
    ∃ leaks,
      valgrind
        (okWorld 0 ""
          (.wellFormed (some
            [⟨.DefinitelyLost, ⟨7⟩, ⟨[⟨none, none, none, none, none⟩]⟩⟩,
             ⟨.PossiblyLost, ⟨9⟩, ⟨[]⟩⟩])))
        "p" = .ok leaks ∧
      leaks.length = 2 ∧
      ∃ hl : 0 < leaks.length, (leaks.get ⟨0, hl⟩).bytes = 7 := by
  obtain ⟨leaks, hok, hlen, hpt⟩ := valgrind_maps_errors_pointwise 0 "" "p"
    [⟨.DefinitelyLost, ⟨7⟩, ⟨[⟨none, none, none, none, none⟩]⟩⟩,
     ⟨.PossiblyLost, ⟨9⟩, ⟨[]⟩⟩]
  have hl : 0 < leaks.length := by rw [hlen]; decide
  exact ⟨leaks, hok, hlen, hl, (hpt 0 hl (by decide)).1⟩

/-- C9: a successfully parsed report whose error-record sequence is
entirely absent is treated identically to one with an empty error list:
`valgrind` returns `Ok` with an empty leak list in both cases. -/
theorem valgrind_absent_errors_like_empty (port : Nat) (stderrText path : String) :
    valgrind (okWorld port stderrText (.wellFormed none)) path = .ok [] ∧
    valgrind (okWorld port stderrText (.wellFormed (some []))) path = .ok [] :=
  ⟨rfl, rfl⟩

/-- C6: a report with zero error records parses successfully and the
pipeline returns the empty leak list, while a malformed stream fails with a
parse error carrying the decoding failure description — two distinguishable
outcomes. -/
theorem valgrind_empty_vs_malformed (port : Nat) (stderrText path desc : String) :
    valgrind (okWorld port stderrText (.wellFormed (some []))) path = .ok [] ∧
    valgrind (okWorld port stderrText (.malformed desc)) path
      = .error ⟨.Other, "Could not parse XML: " ++ desc⟩ :=
  ⟨rfl, rfl⟩

/-- A successful `run_in_valgrind` means the stream was a well-formed
report and the returned model is the one the stream denotes. -/
theorem run_in_valgrind_ok_stream (w : World) (path : String) (out : valgrind_xml.Output)
    (h : (run_in_valgrind w path).2 = .ok out) :
    w.stream = .wellFormed out.errors := by
  obtain ⟨b, a, p, sp, ac, wt, ex, st, stream⟩ := w
  cases stream <;> cases b <;> cases a <;> cases sp <;> cases ac <;> cases wt <;> cases ex <;>
    simp_all [run_in_valgrind, parseReport] <;>
    exact congrArg valgrind_xml.Output.errors h

/-- C8: the pipeline has no partial-success outcome — whenever `valgrind`
returns `Ok leaks`, the whole report was parsed and rendered: `leaks` has
one leak per error record of the report, and `leaks` is empty exactly when
the report carried zero error records. An error, being an `IoError`,
carries no leak data by type. -/
theorem valgrind_ok_means_complete (w : World) (path : String) (leaks : List Leak)
    (h : valgrind w path = .ok leaks) :
    ∃ errors, w.stream = .wellFormed errors ∧
      leaks.length = (errors.getD []).length ∧
      (leaks = [] ↔ errors.getD [] = []) := by
  unfold valgrind at h
  cases hr : (run_in_valgrind w path).2 with
  | error e =>
    rw [hr] at h
    exact absurd h (by simp)
  | ok out =>
    rw [hr] at h
    replace h : Except.ok ((out.errors.getD []).map (fun error =>
        { bytes := error.resources.bytes
          kind := error.kind
          stack_trace := error.stack_trace.frames.map (fun frame =>
            { name := frame.function
              file := frame.file
              line := frame.line : Function }) : Leak }))
        = Except.ok leaks := h
    injection h with h2
    subst h2
    exact ⟨out.errors, run_in_valgrind_ok_stream w path out hr, by simp,
      by simp [List.map_eq_nil_iff]⟩

/-- Witness for C8: applied to a run whose report carries one error record,
the successful result has exactly one leak and is nonempty. -/
theorem valgrind_ok_means_complete_witness :
    ∃ errors,
      (okWorld 0 "" (.wellFormed (some [⟨.StillReachable, ⟨3⟩, ⟨[]⟩⟩]))).stream
        = .wellFormed errors ∧
      ([(⟨3, .StillReachable, []⟩ : Leak)]).length = (errors.getD []).length ∧
      (([(⟨3, .StillReachable, []⟩ : Leak)]) = [] ↔ errors.getD [] = []) :=
  valgrind_ok_means_complete
    (okWorld 0 "" (.wellFormed (some [⟨.StillReachable, ⟨3⟩, ⟨[]⟩⟩]))) "p"
    [⟨3, .StillReachable, []⟩] rfl

/-- C4: whenever the child exits with a non-zero status (after bind,
resolve, spawn, accept and wait all succeeded), the pipeline returns the
Tool-failure error and the report decoder is never invoked, whatever bytes
arrived over the connection. -/
theorem valgrind_child_failure_no_parse (port : Nat) (stderrText path : String)
    (stream : ReportStream) :
    valgrind (failWorld port stderrText stream) path
      = .error ⟨.Other, "valgrind command failed"⟩ ∧
    (run_in_valgrind (failWorld port stderrText stream) path).1.count Event.parse = 0 :=
  ⟨rfl, rfl⟩

/-- C7: a fully successful invocation performs, in this order: bind to the
ephemeral port 0 (never a fixed port), resolution of the bound address,
spawn of the tool with the full-leak-check, all-leak-kinds and XML flags
and a socket destination `<ip>:<port>` equal to the bound address, exactly
one accept, and only then the wait on the child. -/
theorem run_in_valgrind_event_order (port : Nat) (stderrText path : String)
    (stream : ReportStream) :
    (run_in_valgrind (okWorld port stderrText stream) path).1
      = [Event.bind 0,
         Event.localAddr "127.0.0.1" port,
         Event.spawn ["--leak-check=full", "--show-leak-kinds=all", "--xml=yes",
           "--xml-socket=" ++ "127.0.0.1" ++ ":" ++ toString port, path],
         Event.accept,
         Event.wait true,
         Event.parse] ∧
    ((run_in_valgrind (okWorld port stderrText stream) path).1.count Event.accept = 1) := by
  cases stream <;> exact ⟨rfl, rfl⟩

/-- Counterexample to C3 as stated: with the child failing and writing
`"error: out of memory\n"` to its error stream, the pipeline's message is
the fixed `"valgrind command failed"`, not the stripped-and-trimmed
diagnostic `"out of memory"`. -/
theorem valgrind_failure_message_is_generic :
    valgrind (failWorld 0 "error: out of memory\n" (.wellFormed none)) "p"
      = .error ⟨.Other, "valgrind command failed"⟩ ∧
    String.mk (trimEndChars (stripErrPat ("error: out of memory\n").data)) = "out of memory" ∧
    "valgrind command failed" ≠ "out of memory" := by
  refine ⟨rfl, by decide, by decide⟩

/-- C3 (amended): whenever the valgrind child exits with a non-zero status
the pipeline returns the fixed message `"valgrind command failed"`,
independent of the child's error-stream text; the stderr-derived message
with the leading `"error: "` pattern stripped and trailing whitespace
trimmed is produced by `cargo_error` for failed `cargo` invocations, as the
concrete evaluation shows. -/
theorem valgrind_failure_fixed_cargo_stripped (port : Nat) (stderrText path : String)
    (stream : ReportStream) :
    valgrind (failWorld port stderrText stream) path
      = .error ⟨.Other, "valgrind command failed"⟩ ∧
    cargo_error ⟨false, "", "error: error: linker failed \n"⟩
      = ⟨.Other, "cargo command failed: linker failed"⟩ := by
  exact ⟨rfl, by decide⟩

/-- If no element of a list maps to a given error, neither does the
monadic map over `Except`. -/
theorem exceptMapM_ne {α β ε : Type} (f : α → Except ε β) (bad : ε) :
    ∀ L : List α, (∀ x ∈ L, f x ≠ .error bad) → L.mapM f ≠ .error bad := by
  intro L
  induction L with
  | nil => intro _ hc; rw [List.mapM_nil] at hc; cases hc
  | cons a as ih =>
    intro h hc
    rw [List.mapM_cons] at hc
    cases hfa : f a with
    | error e =>
      rw [hfa] at hc
      replace hc : Except.error e = Except.error bad := hc
      injection hc with h2
      exact h a (by simp) (by rw [hfa, h2])
    | ok b =>
      rw [hfa] at hc
      replace hc : (as.mapM f >>= fun bs => pure (b :: bs)) = Except.error bad := hc
      cases hm : as.mapM f with
      | error e2 =>
        rw [hm] at hc
        replace hc : Except.error e2 = Except.error bad := hc
        injection hc with h2
        exact ih (fun x hx => h x (List.mem_cons_of_mem a hx)) (by rw [hm, h2])
      | ok bs =>
        rw [hm] at hc
        replace hc : Except.ok (b :: bs) = Except.error bad := hc
        cases hc

/-- If every element maps to a success or to one fixed error, and some
element maps to that error, the monadic map over `Except` yields it. -/
theorem exceptMapM_error_of_mem {α β ε : Type} (f : α → Except ε β) (bad : ε) :
    ∀ L : List α, (∀ x ∈ L, (∃ b, f x = .ok b) ∨ f x = .error bad) →
      (∃ x ∈ L, f x = .error bad) → L.mapM f = .error bad := by
  intro L
  induction L with
  | nil => rintro _ ⟨x, hx, _⟩; cases hx
  | cons a as ih =>
    rintro hall ⟨x, hx, hxbad⟩
    rw [List.mapM_cons]
    rcases hall a (by simp) with ⟨b, hb⟩ | hbad
    · rcases List.mem_cons.mp hx with rfl | hxas
      · rw [hb] at hxbad; cases hxbad
      · have hm := ih (fun y hy => hall y (List.mem_cons_of_mem a hy)) ⟨x, hxas, hxbad⟩
        rw [hb]
        show (as.mapM f >>= fun bs => pure (b :: bs)) = Except.error bad
        rw [hm]
        rfl
    · rw [hbad]
      rfl

/-- A target with a nonempty kind list whose first kind is not library-like
is either resolved to a path or hits the `unimplemented!()` branch. -/
theorem target_path_cases (td : List String) (t : metadata.Target)
    (hk : t.kind ≠ []) (hnl : ∀ k ∈ libKinds, t.kind.head? ≠ some k) :
    (∃ b, target_path td t = .ok b) ∨ target_path td t = .error .unimplementedKind := by
  cases hk2 : t.kind with
  | nil => exact absurd hk2 hk
  | cons k ks =>
    have hh : t.kind.head? = some k := by rw [hk2]; rfl
    unfold target_path
    rw [hh]
    cases k
    case Binary => exact Or.inl ⟨_, rfl⟩
    case Example => exact Or.inl ⟨_, rfl⟩
    case Bench => exact Or.inl ⟨_, rfl⟩
    case Test => exact Or.inr rfl
    case CustomBuild => exact Or.inr rfl
    case Library => exact absurd hh (hnl _ (by decide))
    case ProcMacro => exact absurd hh (hnl _ (by decide))
    case DyLib => exact absurd hh (hnl _ (by decide))
    case CDyLib => exact absurd hh (hnl _ (by decide))
    case StaticLib => exact absurd hh (hnl _ (by decide))
    case RLib => exact absurd hh (hnl _ (by decide))

/-- C10: under the crate-metadata invariant that a target whose first kind
is library-like never lists the `Binary` crate type (such targets are
dropped by the `crate_types` filter) and that kind lists are nonempty, the
`unreachable!()` branch is never the outcome; and whenever the requested
manifest has a target with the `Binary` crate type whose first kind is
`Test` or `CustomBuild`, `binaries_from` panics on the `unimplemented!()`
branch instead of returning. -/
theorem binaries_from_unimplemented_panic (m : metadata.Metadata) (requested : String)
    (build : Build)
    (hinv : ∀ p ∈ m.packages, ∀ t ∈ p.targets,
      metadata.CrateType.Binary ∈ t.crate_types → ∀ k ∈ libKinds, t.kind.head? ≠ some k)
    (hne : ∀ p ∈ m.packages, ∀ t ∈ p.targets, t.kind ≠ []) :
    binaries_from m requested build ≠ .error .unreachableKind ∧
    ((∃ p ∈ m.packages, p.manifest_path = requested ∧ ∃ t ∈ p.targets,
        metadata.CrateType.Binary ∈ t.crate_types ∧
        (t.kind.head? = some .Test ∨ t.kind.head? = some .CustomBuild)) →
      binaries_from m requested build = .error .unimplementedKind) := by
  have hbf : binaries_from m requested build
      = ((m.packages.filter (fun package => package.manifest_path == requested)).flatMap
          (fun package => package.targets.filter (fun target =>
            target.crate_types.contains metadata.CrateType.Binary))).mapM
        (target_path [m.target_directory, build.as_ref]) := rfl
  have hmem : ∀ t ∈ (m.packages.filter
        (fun package => package.manifest_path == requested)).flatMap
        (fun package => package.targets.filter (fun target =>
          target.crate_types.contains metadata.CrateType.Binary)),
      metadata.CrateType.Binary ∈ t.crate_types ∧ ∃ p ∈ m.packages, t ∈ p.targets := by
    intro t ht
    obtain ⟨p, hpf, htf⟩ := List.mem_flatMap.mp ht
    obtain ⟨hp, _⟩ := List.mem_filter.mp hpf
    obtain ⟨htp, htc⟩ := List.mem_filter.mp htf
    exact ⟨List.elem_iff.mp htc, p, hp, htp⟩
  have hclass : ∀ t ∈ (m.packages.filter
        (fun package => package.manifest_path == requested)).flatMap
        (fun package => package.targets.filter (fun target =>
          target.crate_types.contains metadata.CrateType.Binary)),
      (∃ b, target_path [m.target_directory, build.as_ref] t = .ok b) ∨
        target_path [m.target_directory, build.as_ref] t = .error .unimplementedKind := by
    intro t ht
    obtain ⟨hbin, p, hp, htp⟩ := hmem t ht
    exact target_path_cases _ t (hne p hp t htp) (hinv p hp t htp hbin)
  constructor
  · rw [hbf]
    refine exceptMapM_ne _ _ _ (fun t ht => ?_)
    rcases hclass t ht with ⟨b, hb⟩ | hb <;> simp [hb]
  · rintro ⟨p, hp, hpeq, t, htp, hbin, hTest⟩
    rw [hbf]
    refine exceptMapM_error_of_mem _ _ _ hclass ⟨t, ?_, ?_⟩
    · refine List.mem_flatMap.mpr
        ⟨p, List.mem_filter.mpr ⟨hp, beq_iff_eq.mpr hpeq⟩,
          List.mem_filter.mpr ⟨htp, List.elem_iff.mpr hbin⟩⟩
    · rcases hTest with hh | hh <;> (unfold target_path; rw [hh]; rfl)

/-- Witness for C10: a one-package metadata whose single target has the
`Binary` crate type but first kind `Test` makes `binaries_from` hit the
`unimplemented!()` panic. -/
theorem binaries_from_unimplemented_panic_witness :
    binaries_from
      ⟨[⟨"/c/Cargo.toml", [⟨"t", [metadata.Kind.Test], [metadata.CrateType.Binary]⟩]⟩],
        "target"⟩ "/c/Cargo.toml" Build.Debug = .error .unimplementedKind :=
  (binaries_from_unimplemented_panic
      ⟨[⟨"/c/Cargo.toml", [⟨"t", [metadata.Kind.Test], [metadata.CrateType.Binary]⟩]⟩],
        "target"⟩ "/c/Cargo.toml" Build.Debug (by decide) (by decide)).2
    ⟨⟨"/c/Cargo.toml", [⟨"t", [metadata.Kind.Test], [metadata.CrateType.Binary]⟩]⟩,
      by decide, rfl,
      ⟨"t", [metadata.Kind.Test], [metadata.CrateType.Binary]⟩,
      by decide, by decide, Or.inl rfl⟩

end CargoValgrind
